import Mathlib

/-!
Shallow embedding of the detection-and-trigger engine of `RTSID.py`: the
`ImageWatch` record (lines 47-68) and the body of `MonitorThread.run`
(lines 79-138).  The external calls the loop makes (mss `grab`,
cv2 `matchTemplate`/`minMaxLoc`, `pytesseract.image_to_string`, and the
pyautogui / win10toast / winsound / win32gui action backends) are modelled by
an `Env` record carrying the result each call would return on that tick,
including its exception cases; the per-watch `try`/`except` of the loop is
reflected by making the step function total and recording the error events it
emits (`self.error.emit(str(e))`).  Scores and times are embedded as `ℚ`,
pixel coordinates as `Int`/`Nat`, and Python `//` on possibly negative ints
as `Int.fdiv`.
-/

namespace RTSID

/-- A capture geometry dictionary: either the dict built from `item.region`
(`top`/`left`/`width`/`height`, lines 86-89) or `sct.monitors[1]`. -/
structure Mon where
  left : Int
  top : Int
  width : Int
  height : Int
  deriving DecidableEq, Repr

/-- The six side-effect actions of the firing block (lines 115-131), in the
order the code attempts them. -/
inductive Action where
  | move
  | click
  | press
  | notify
  | sound
  | window
  deriving DecidableEq, Repr

/-- `ImageWatch` (lines 47-68).  The decoded grayscale template is abstracted
to its shape `(h, w)` (`self.template.shape[:2]`); `none` means `cv2.imread`
failed and the watch is inert.  The mask buffer is likewise abstracted to its
presence.  All other fields mirror the attributes set in `__init__` and
edited by the UI. -/
structure ImageWatch where
  path : String
  template : Option (Nat × Nat)
  threshold : ℚ
  region : Option (Int × Int × Int × Int)
  move_mouse : Bool
  mouse_speed : ℚ
  click : Bool
  press_key : Option String
  notify : Bool
  sound : Option String
  window_title : Option String
  mask : Option Unit
  mask_path : Option String
  ocr_fallback : Bool
  triggered : Bool

/-- `self.h`: number of template rows, `0` when the template failed to
decode (lines 52-55). -/
def ImageWatch.h (iw : ImageWatch) : Nat :=
  match iw.template with
  | some p => p.1
  | none => 0

/-- `self.w`: number of template columns, `0` when the template failed to
decode (lines 52-55). -/
def ImageWatch.w (iw : ImageWatch) : Nat :=
  match iw.template with
  | some p => p.2
  | none => 0

/-- `ImageWatch.__init__(path)` given the outcome of `cv2.imread`:
all the default field values of lines 49-68 (`threshold = 0.8`, everything
else off/empty, `_triggered = False`). -/
def initWatch (path : String) (decoded : Option (Nat × Nat)) : ImageWatch where
  path := path
  template := decoded
  threshold := 4 / 5
  region := none
  move_mouse := false
  mouse_speed := 0
  click := false
  press_key := none
  notify := false
  sound := none
  window_title := none
  mask := none
  mask_path := none
  ocr_fallback := false
  triggered := false

/-- The results the external world would hand the loop for one watch on one
tick.  `capture` is the grabbed-and-grayscaled frame, abstracted to its
shape `(rows, cols)`, or the exception text if `sct.grab`/`cvtColor` raises;
`matchVal`/`matchLoc` are what `cv2.minMaxLoc` returns when `matchTemplate`
succeeds; `ocr` is the `pytesseract.image_to_string` result or its exception
text; `actionErr a` is the exception text raised by action backend `a`, or
`none` when that backend succeeds. -/
structure Env where
  capture : Except String (Nat × Nat)
  matchVal : ℚ
  matchLoc : Int × Int
  ocr : Except String String
  actionErr : Action → Option String

/-- Observable outcome of processing one watch on one tick: the new
`_triggered` value, the initial and final `found` flags, whether OCR was
invoked, the `max_loc` in scope at the trigger decision, the computed match
center when the watch fired, the action backends that completed, and the
error events emitted through `self.error`. -/
structure StepResult where
  triggered : Bool
  tmplFound : Bool
  found : Bool
  ocrInvoked : Bool
  loc : Int × Int
  center : Option (Int × Int)
  executed : List Action
  errors : List String
  deriving DecidableEq, Repr

/-- Substring containment of the fixed sentinel `'skip'` in a character
list: true iff some suffix of the list starts with `s`, `k`, `i`, `p`. -/
def containsSkip : List Char → Bool
  | [] => false
  | c :: rest => List.isPrefixOf ['s', 'k', 'i', 'p'] (c :: rest) || containsSkip rest

/-- Line 107, `'skip' in text.lower()`: lowercase the extracted text
character-wise and test whether it contains the sentinel substring. -/
def hasSkipLower (text : String) : Bool :=
  containsSkip (text.data.map Char.toLower)

/-- Size handling of the `cv2.matchTemplate` call of lines 95-101, after
OpenCV's templmatch.cpp.  On the maskless path the function computes
`needswap = img.h < templ.h || img.w < templ.w`; when `needswap` holds it
asserts `img.h <= templ.h && img.w <= templ.w`, then swaps image and template
and computes a score map — so a template at least as large as the frame in
both dimensions does NOT raise, and only the mixed case (template strictly
larger in one dimension, frame strictly larger in the other) trips the
assertion.  On the masked path there is no swap and the result size
`(img - templ + 1)` is invalid as soon as the template exceeds the frame in
either dimension, so that call raises. -/
def matchRaises (masked : Bool) (fh fw th tw : Nat) : Bool :=
  if masked then
    decide (th > fh ∨ tw > fw)
  else
    decide (fh < th ∨ fw < tw) && !decide (fh ≤ th ∧ fw ≤ tw)

/-- The `mon` dictionary of lines 86-90: the region's geometry when
`item.region` is set, otherwise `sct.monitors[1]`. -/
def monFor (monitor1 : Mon) (iw : ImageWatch) : Mon :=
  match iw.region with
  | some (x, y, wd, ht) => ⟨x, y, wd, ht⟩
  | none => monitor1

/-- The guarded action calls of lines 115-131, in source order.  Each entry
is present exactly when its `if item.<field>:` guard is truthy. -/
def actionPlan (iw : ImageWatch) : List Action :=
  (if iw.move_mouse then [Action.move] else []) ++
  (if iw.click then [Action.click] else []) ++
  (if iw.press_key.isSome then [Action.press] else []) ++
  (if iw.notify then [Action.notify] else []) ++
  (if iw.sound.isSome then [Action.sound] else []) ++
  (if iw.window_title.isSome then [Action.window] else [])

/-- Run the action calls in order.  A raising backend aborts the remaining
calls (the exception propagates to the per-watch `except` of line 134) and
yields the single emitted error event; completed calls are collected. -/
def runActs (env : Env) : List Action → List Action × List String
  | [] => ([], [])
  | a :: rest =>
    match env.actionErr a with
    | none =>
      let r := runActs env rest
      (a :: r.1, r.2)
    | some e => ([], [e])

/-- Lines 110-133: the trigger decision after `found` and `max_loc` are
settled.  On a rising edge (`found and not item._triggered`) the flag is set,
the match center is computed (lines 112-114) and the actions run; on a tick
with `not found` the flag is cleared (lines 132-133); otherwise nothing
happens. -/
def finishWatch (mon : Mon) (iw : ImageWatch) (tmplFound ocrInvoked found : Bool)
    (loc : Int × Int) (env : Env) : StepResult :=
  if found && !iw.triggered then
    let cx : Int := mon.left + loc.1 + (iw.w / 2 : Nat)
    let cy : Int := mon.top + loc.2 + (iw.h / 2 : Nat)
    let r := runActs env (actionPlan iw)
    { triggered := true, tmplFound := tmplFound, found := found,
      ocrInvoked := ocrInvoked, loc := loc, center := some (cx, cy),
      executed := r.1, errors := r.2 }
  else if !found then
    { triggered := false, tmplFound := tmplFound, found := found,
      ocrInvoked := ocrInvoked, loc := loc, center := none,
      executed := [], errors := [] }
  else
    { triggered := iw.triggered, tmplFound := tmplFound, found := found,
      ocrInvoked := ocrInvoked, loc := loc, center := none,
      executed := [], errors := [] }

/-- One iteration of the `for item in list(self.watch_list)` body
(lines 84-135) for a single watch, inside its `try`/`except`:
capture and grayscale the frame, skip inert watches (`continue`, line 94),
call `cv2.matchTemplate` — which raises exactly when `matchRaises` holds for
the frame and template shapes, caught at line 134 — take `max_val`/`max_loc`,
compute
`found = max_val >= item.threshold` (line 103), consult the OCR fallback only
when `not found and item.ocr_fallback` (lines 104-109, a raising
`image_to_string` is caught at line 134), then apply the trigger logic. -/
def processWatch (monitor1 : Mon) (env : Env) (iw : ImageWatch) : StepResult :=
  let mon := monFor monitor1 iw
  match env.capture with
  | Except.error e =>
      { triggered := iw.triggered, tmplFound := false, found := false,
        ocrInvoked := false, loc := (0, 0), center := none,
        executed := [], errors := [e] }
  | Except.ok (fh, fw) =>
    match iw.template with
    | none =>
        { triggered := iw.triggered, tmplFound := false, found := false,
          ocrInvoked := false, loc := (0, 0), center := none,
          executed := [], errors := [] }
    | some (th, tw) =>
      if matchRaises iw.mask.isSome fh fw th tw then
        { triggered := iw.triggered, tmplFound := false, found := false,
          ocrInvoked := false, loc := (0, 0), center := none,
          executed := [], errors := ["matchTemplate assertion failed"] }
      else
        let found0 := decide (env.matchVal ≥ iw.threshold)
        if !found0 && iw.ocr_fallback then
          match env.ocr with
          | Except.error e =>
              { triggered := iw.triggered, tmplFound := found0, found := found0,
                ocrInvoked := true, loc := env.matchLoc, center := none,
                executed := [], errors := [e] }
          | Except.ok text =>
              let hasSkip := hasSkipLower text
              let found1 := if hasSkip then true else found0
              let loc1 := if hasSkip then (Int.fdiv mon.width 2, Int.fdiv mon.height 2)
                          else env.matchLoc
              finishWatch mon iw found0 true found1 loc1 env
        else
          finishWatch mon iw found0 false found0 env.matchLoc env

/-- Successive ticks of the loop for a single watch: the only per-watch state
the loop updates between ticks is `_triggered`. -/
def runTicks (monitor1 : Mon) (iw : ImageWatch) : List Env → List StepResult
  | [] => []
  | e :: rest =>
    let r := processWatch monitor1 e iw
    r :: runTicks monitor1 { iw with triggered := r.triggered } rest

/-- One full tick over the watch collection: each watch is processed inside
its own `try`/`except`, so the watches' outcomes are independent. -/
def tickWatches (monitor1 : Mon) : List (Env × ImageWatch) → List StepResult
  | [] => []
  | (e, iw) :: rest => processWatch monitor1 e iw :: tickWatches monitor1 rest

/-- Lines 136-138: `elapsed = time.time() - start; if elapsed < self.interval:
time.sleep(self.interval - elapsed)` — the duration slept at the end of a
tick. -/
def sleepFor (elapsed interval : ℚ) : ℚ :=
  if elapsed < interval then interval - elapsed else 0

/-- An exception-free tick environment: a comfortably large frame, template
score `s`, match location `(0, 0)`, OCR returning empty text, every action
backend succeeding. -/
def envClean (s : ℚ) : Env where
  capture := Except.ok (10000, 10000)
  matchVal := s
  matchLoc := (0, 0)
  ocr := Except.ok ""
  actionErr := fun _ => none

/-- The per-tick firing trace of one watch over a sequence of template
scores, on exception-free ticks. -/
def fireTrace (monitor1 : Mon) (iw : ImageWatch) (ss : List ℚ) : List Bool :=
  (runTicks monitor1 iw (ss.map envClean)).map fun r => r.center.isSome

/-- Reference machine transcribed from the spec's wording (section 4.4):
per tick, `found = (score ≥ threshold)`; fire iff `found` and not armed,
then set armed; clear armed whenever not found; otherwise keep armed. -/
def edgeFires (t : ℚ) : Bool → List ℚ → List Bool
  | _, [] => []
  | armed, s :: rest =>
    let found := decide (s ≥ t)
    let fire := found && !armed
    fire :: edgeFires t (if fire then true else if !found then false else armed) rest

/-- Observable events of the monitor loop skeleton: a read of `self.running`,
a complete pass over the watch collection, and the end-of-tick sleep. -/
inductive LoopEvent where
  | check (running : Bool)
  | tick
  | sleep
  deriving DecidableEq, Repr

/-- Lines 82-138 loop skeleton as an event trace.  Each input pair gives the
value `self.running` holds at that read and whether `elapsed < interval` for
the iteration it starts.  The flag is read exactly once per iteration, at the
`while` head; when true, the full tick body runs, then the conditional sleep,
and only then is the flag read again. -/
def runLoop : List (Bool × Bool) → List LoopEvent
  | [] => []
  | (f, s) :: rest =>
    LoopEvent.check f ::
      if f then
        LoopEvent.tick :: ((if s then [LoopEvent.sleep] else []) ++ runLoop rest)
      else []

/-- Reference loop transcribed from the spec's wording for C9: the stop flag
is checked once per full iteration and once more at the top of the
end-of-tick sleep; a false read at the sleep's head skips the sleep and
stops.  Each input boolean is one read of the flag. -/
def specLoopC9 : List Bool → List LoopEvent
  | [] => []
  | [f] =>
    LoopEvent.check f :: if f then [LoopEvent.tick] else []
  | f :: g :: rest2 =>
    LoopEvent.check f ::
      if f then
        LoopEvent.tick :: LoopEvent.check g ::
          (if g then LoopEvent.sleep :: specLoopC9 rest2 else [])
      else []

/-! Concrete instances used by the closed witness and counterexample
theorems. -/

/-- A primary monitor at the origin. -/
def mOne : Mon := ⟨0, 0, 2000, 1000⟩

/-- A freshly added watch with a decoded 20×20 template and the `__init__`
defaults. -/
def wBase : ImageWatch := initWatch "img.png" (some (20, 20))

/-- `wBase` with its sensitivity slider moved to 100%, i.e. threshold 1
(kept integer-valued so closed statements evaluate by `decide`). -/
def wT1 : ImageWatch := { wBase with threshold := 1 }

/-- A maskless watch on region `(0, 0, 30, 30)` whose 50×20 template is
taller than the 30×30 frame but narrower — the mixed-dimension shape on
which `cv2.matchTemplate` raises. -/
def wMixed : ImageWatch :=
  { wT1 with template := some (50, 20), region := some (0, 0, 30, 30) }

/-- A tick whose grab of the 30×30 region yields the matching 30×30 frame. -/
def envMixed : Env := { envClean 1 with capture := Except.ok (30, 30) }

/-- A maskless full-monitor watch whose 1100×2100 template exceeds the
1000×2000 monitor frame in both dimensions — the shape `cv2.matchTemplate`
silently swaps and computes. -/
def wBig : ImageWatch := { wT1 with template := some (1100, 2100) }

/-- A tick whose grab of the full monitor `mOne` yields its 1000×2000 frame,
with the (swapped) match scoring at threshold. -/
def envBig : Env := { envClean 1 with capture := Except.ok (1000, 2000) }

/-- A watch configured to both move the pointer and click. -/
def wActs : ImageWatch := { wT1 with move_mouse := true, click := true }

/-- A detecting tick on which the pointer-move backend raises. -/
def envMoveFail : Env :=
  { envClean 1 with
    actionErr := fun a => if a = Action.move then some "moveTo failed" else none }

/-- A watch restricted to the region `(0, 0, 100, 100)`. -/
def wReg : ImageWatch := { wT1 with region := some (0, 0, 100, 100) }

/-- A detecting tick at threshold score with match location `(40, 40)` in a
100×100 frame. -/
def envLoc : Env :=
  { envClean 1 with capture := Except.ok (100, 100), matchLoc := (40, 40) }

/-- A watch whose template failed to decode, with the OCR fallback on. -/
def wInert : ImageWatch := { initWatch "bad.png" none with ocr_fallback := true }

/-- A below-threshold tick whose OCR text contains the sentinel keyword. -/
def envSkip : Env := { envClean 0 with ocr := Except.ok "please SKIP this" }

/-- An armed watch with the OCR fallback on. -/
def wOcrArmed : ImageWatch := { wT1 with ocr_fallback := true, triggered := true }

/-- A below-threshold tick on which the OCR engine raises. -/
def envOcrErr : Env :=
  { envClean 0 with ocr := Except.error "tesseract missing" }

/-- An unarmed watch with the OCR fallback on. -/
def wOcrOn : ImageWatch := { wT1 with ocr_fallback := true }

/-- An unarmed watch configured to move the pointer. -/
def wMove : ImageWatch := { wT1 with move_mouse := true }

/-- A tick on which the screen grab raises. -/
def envGrabErr : Env := { envClean 1 with capture := Except.error "grab failed" }

/-! ### Helper lemmas -/

theorem runActs_fst (env : Env) (l : List Action) :
    (runActs env l).1 = l.takeWhile fun a => (env.actionErr a).isNone := by
  induction l with
  | nil => rfl
  | cons a rest ih =>
    rw [List.takeWhile_cons]
    cases h : env.actionErr a with
    | none => simp [runActs, h, ih]
    | some e => simp [runActs, h]

theorem runActs_errors_nil (env : Env) (l : List Action)
    (h : ∀ a ∈ l, env.actionErr a = none) : (runActs env l).2 = [] := by
  induction l with
  | nil => rfl
  | cons a rest ih =>
    have ha := h a (List.mem_cons_self a rest)
    simp only [runActs, ha]
    exact ih fun b hb => h b (List.mem_cons_of_mem a hb)

theorem finishWatch_tmplFound (mon : Mon) (iw : ImageWatch)
    (a b c : Bool) (loc : Int × Int) (env : Env) :
    (finishWatch mon iw a b c loc env).tmplFound = a := by
  unfold finishWatch
  split
  · rfl
  split <;> rfl

theorem finishWatch_ocrInvoked (mon : Mon) (iw : ImageWatch)
    (a b c : Bool) (loc : Int × Int) (env : Env) :
    (finishWatch mon iw a b c loc env).ocrInvoked = b := by
  unfold finishWatch
  split
  · rfl
  split <;> rfl

theorem finishWatch_found (mon : Mon) (iw : ImageWatch)
    (a b c : Bool) (loc : Int × Int) (env : Env) :
    (finishWatch mon iw a b c loc env).found = c := by
  unfold finishWatch
  split
  · rfl
  split <;> rfl

theorem finishWatch_triggered (mon : Mon) (iw : ImageWatch)
    (a b c : Bool) (loc : Int × Int) (env : Env) :
    (finishWatch mon iw a b c loc env).triggered =
      (if c && !iw.triggered then true else if !c then false else iw.triggered) := by
  unfold finishWatch
  split
  · simp_all
  split <;> simp_all

theorem finishWatch_center (mon : Mon) (iw : ImageWatch)
    (a b c : Bool) (loc : Int × Int) (env : Env) :
    (finishWatch mon iw a b c loc env).center =
      (if c && !iw.triggered then
        some (mon.left + loc.1 + (iw.w / 2 : Nat), mon.top + loc.2 + (iw.h / 2 : Nat))
       else none) := by
  unfold finishWatch
  split
  · simp_all
  split <;> simp_all

theorem finishWatch_executed (mon : Mon) (iw : ImageWatch)
    (a b c : Bool) (loc : Int × Int) (env : Env) :
    (finishWatch mon iw a b c loc env).executed =
      (if c && !iw.triggered then (runActs env (actionPlan iw)).1 else []) := by
  unfold finishWatch
  split
  · simp_all
  split <;> simp_all

theorem finishWatch_errors (mon : Mon) (iw : ImageWatch)
    (a b c : Bool) (loc : Int × Int) (env : Env) :
    (finishWatch mon iw a b c loc env).errors =
      (if c && !iw.triggered then (runActs env (actionPlan iw)).2 else []) := by
  unfold finishWatch
  split
  · simp_all
  split <;> simp_all

/-- `sct.grab` or the grayscale conversion raising: the exception is caught
at line 134 and reported; nothing else happens for the watch. -/
theorem processWatch_capture_err (monitor1 : Mon) (env : Env) (iw : ImageWatch)
    (e : String) (hC : env.capture = Except.error e) :
    processWatch monitor1 env iw =
      { triggered := iw.triggered, tmplFound := false, found := false,
        ocrInvoked := false, loc := (0, 0), center := none,
        executed := [], errors := [e] } := by
  simp [processWatch, hC]

/-- Line 94: an inert watch is skipped by `continue`. -/
theorem processWatch_inert (monitor1 : Mon) (env : Env) (iw : ImageWatch)
    (fh fw : Nat) (hC : env.capture = Except.ok (fh, fw)) (hT : iw.template = none) :
    processWatch monitor1 env iw =
      { triggered := iw.triggered, tmplFound := false, found := false,
        ocrInvoked := false, loc := (0, 0), center := none,
        executed := [], errors := [] } := by
  simp [processWatch, hC, hT]

/-- A template no larger than the frame in either dimension never makes
`cv2.matchTemplate` raise, masked or not. -/
theorem matchRaises_of_le (m : Bool) (fh fw th tw : Nat)
    (hh : th ≤ fh) (hw : tw ≤ fw) : matchRaises m fh fw th tw = false := by
  unfold matchRaises
  cases m <;> simp <;> omega

/-- A maskless template at least as large as the frame in both dimensions is
swapped and computed, not raised on. -/
theorem matchRaises_maskless_swap (fh fw th tw : Nat)
    (hh : fh ≤ th) (hw : fw ≤ tw) : matchRaises false fh fw th tw = false := by
  unfold matchRaises
  simp
  omega

/-- A maskless template strictly larger than the frame in one dimension and
strictly smaller in the other trips the `needswap` assertion. -/
theorem matchRaises_maskless_mixed (fh fw th tw : Nat)
    (h : (fh < th ∧ tw < fw) ∨ (th < fh ∧ fw < tw)) :
    matchRaises false fh fw th tw = true := by
  unfold matchRaises
  simp
  omega

/-- A raising `cv2.matchTemplate` call: the exception is caught at line 134
and reported; nothing else happens for the watch. -/
theorem processWatch_match_raises (monitor1 : Mon) (env : Env) (iw : ImageWatch)
    (th tw fh fw : Nat) (hC : env.capture = Except.ok (fh, fw))
    (hT : iw.template = some (th, tw))
    (hb : matchRaises iw.mask.isSome fh fw th tw = true) :
    processWatch monitor1 env iw =
      { triggered := iw.triggered, tmplFound := false, found := false,
        ocrInvoked := false, loc := (0, 0), center := none,
        executed := [], errors := ["matchTemplate assertion failed"] } := by
  simp only [processWatch, hC, hT]
  rw [if_pos hb]

/-- A template score at or above threshold: `found` is true at once and the
OCR branch is not entered. -/
theorem processWatch_score_hit (monitor1 : Mon) (env : Env) (iw : ImageWatch)
    (th tw fh fw : Nat) (hC : env.capture = Except.ok (fh, fw))
    (hT : iw.template = some (th, tw))
    (hr : matchRaises iw.mask.isSome fh fw th tw = false)
    (hs : env.matchVal ≥ iw.threshold) :
    processWatch monitor1 env iw =
      finishWatch (monFor monitor1 iw) iw true false true env.matchLoc env := by
  simp only [processWatch, hC, hT]
  rw [if_neg (by simp [hr])]
  simp [hs]

/-- A template miss with the OCR fallback off. -/
theorem processWatch_miss_noocr (monitor1 : Mon) (env : Env) (iw : ImageWatch)
    (th tw fh fw : Nat) (hC : env.capture = Except.ok (fh, fw))
    (hT : iw.template = some (th, tw))
    (hr : matchRaises iw.mask.isSome fh fw th tw = false)
    (hs : ¬env.matchVal ≥ iw.threshold) (ho : iw.ocr_fallback = false) :
    processWatch monitor1 env iw =
      finishWatch (monFor monitor1 iw) iw false false false env.matchLoc env := by
  simp only [processWatch, hC, hT]
  rw [if_neg (by simp [hr])]
  simp [hs, ho]

/-- A template miss with the OCR fallback on and the OCR engine raising: the
exception is caught at line 134 and reported; `_triggered` keeps its value. -/
theorem processWatch_miss_ocr_err (monitor1 : Mon) (env : Env) (iw : ImageWatch)
    (th tw fh fw : Nat) (e : String) (hC : env.capture = Except.ok (fh, fw))
    (hT : iw.template = some (th, tw))
    (hr : matchRaises iw.mask.isSome fh fw th tw = false)
    (hs : ¬env.matchVal ≥ iw.threshold) (ho : iw.ocr_fallback = true)
    (hocr : env.ocr = Except.error e) :
    processWatch monitor1 env iw =
      { triggered := iw.triggered, tmplFound := false, found := false,
        ocrInvoked := true, loc := env.matchLoc, center := none,
        executed := [], errors := [e] } := by
  simp only [processWatch, hC, hT]
  rw [if_neg (by simp [hr])]
  simp [hs, ho, hocr]

/-- A template miss with the OCR fallback on and OCR returning text: `found`
is recomputed from the keyword test and, on a hit, `max_loc` becomes the
frame center. -/
theorem processWatch_miss_ocr_ok (monitor1 : Mon) (env : Env) (iw : ImageWatch)
    (th tw fh fw : Nat) (text : String) (hC : env.capture = Except.ok (fh, fw))
    (hT : iw.template = some (th, tw))
    (hr : matchRaises iw.mask.isSome fh fw th tw = false)
    (hs : ¬env.matchVal ≥ iw.threshold) (ho : iw.ocr_fallback = true)
    (hocr : env.ocr = Except.ok text) :
    processWatch monitor1 env iw =
      finishWatch (monFor monitor1 iw) iw false true
        (hasSkipLower text)
        (if hasSkipLower text then
          (Int.fdiv (monFor monitor1 iw).width 2, Int.fdiv (monFor monitor1 iw).height 2)
         else env.matchLoc) env := by
  have hf : decide (env.matchVal ≥ iw.threshold) = false := by simp [hs]
  simp only [processWatch, hC, hT]
  rw [if_neg (by simp [hr])]
  simp only [hf, ho, Bool.not_false, Bool.and_self, if_true, hocr]
  cases hd : hasSkipLower text <;> simp [hd]

/-- On a clean tick (large frame, OCR text empty, no exceptions) a watch with
a decoded, fitting template fires iff the score clears the threshold while it
is unarmed, and its flag follows the edge-trigger recurrence. -/
theorem processWatch_clean_step (monitor1 : Mon) (iw : ImageWatch) (th tw : Nat)
    (hT : iw.template = some (th, tw)) (h1 : th ≤ 10000) (h2 : tw ≤ 10000) (s : ℚ) :
    ((processWatch monitor1 (envClean s) iw).center.isSome
        = (decide (s ≥ iw.threshold) && !iw.triggered)) ∧
    ((processWatch monitor1 (envClean s) iw).triggered
        = (if decide (s ≥ iw.threshold) && !iw.triggered then true
           else if !(decide (s ≥ iw.threshold)) then false else iw.triggered)) := by
  cases hval : decide (s ≥ iw.threshold) with
  | false =>
    have hs : ¬(envClean s).matchVal ≥ iw.threshold := of_decide_eq_false hval
    cases ho : iw.ocr_fallback with
    | false =>
      rw [processWatch_miss_noocr monitor1 (envClean s) iw th tw 10000 10000 rfl hT
        (matchRaises_of_le iw.mask.isSome 10000 10000 th tw h1 h2) hs ho]
      simp [finishWatch_center, finishWatch_triggered]
    | true =>
      rw [processWatch_miss_ocr_ok monitor1 (envClean s) iw th tw 10000 10000 "" rfl hT
        (matchRaises_of_le iw.mask.isSome 10000 10000 th tw h1 h2) hs ho rfl]
      have h0 : hasSkipLower "" = false := rfl
      simp [finishWatch_center, finishWatch_triggered, h0]
  | true =>
    have hs : (envClean s).matchVal ≥ iw.threshold := of_decide_eq_true hval
    rw [processWatch_score_hit monitor1 (envClean s) iw th tw 10000 10000 rfl hT
      (matchRaises_of_le iw.mask.isSome 10000 10000 th tw h1 h2) hs]
    cases ha : iw.triggered <;>
      simp [finishWatch_center, finishWatch_triggered, ha]

/-- C1: detection is strictly edge-triggered — over any score sequence on
clean ticks, the firing trace of the loop body equals the trace of the spec's
edge-trigger state machine (fire exactly when found while unarmed; arm on
firing; disarm on any not-found tick), hence at most one fire per continuous
found episode. -/
theorem edge_trigger_matches_spec_machine (monitor1 : Mon) (th tw : Nat)
    (h1 : th ≤ 10000) (h2 : tw ≤ 10000) :
    ∀ (ss : List ℚ) (iw : ImageWatch), iw.template = some (th, tw) →
      fireTrace monitor1 iw ss = edgeFires iw.threshold iw.triggered ss := by
  intro ss
  induction ss with
  | nil => intro iw hT; rfl
  | cons s rest ih =>
    intro iw hT
    have hstep : fireTrace monitor1 iw (s :: rest) =
        (processWatch monitor1 (envClean s) iw).center.isSome ::
          fireTrace monitor1
            { iw with triggered := (processWatch monitor1 (envClean s) iw).triggered }
            rest := rfl
    rw [hstep,
      ih { iw with triggered := (processWatch monitor1 (envClean s) iw).triggered } hT]
    have hc := (processWatch_clean_step monitor1 iw th tw hT h1 h2 s).1
    have ht := (processWatch_clean_step monitor1 iw th tw hT h1 h2 s).2
    simp only [edgeFires, hc, ht]

/-- C1 witness: the spec's example shape — scores below, at, at, below,
above threshold fire exactly at ticks 2 and 5. -/
theorem edge_trigger_matches_spec_machine_witness :
    fireTrace mOne wT1 [0, 1, 1, 0, 2] = [false, true, false, false, true] := by
  have h := edge_trigger_matches_spec_machine mOne 20 20 (by decide) (by decide)
    [0, 1, 1, 0, 2] wT1 rfl
  rw [h]
  decide

/-- C2: with a decoded, fitting template, `found` is first computed as
`score ≥ threshold` (equality counts as detected), OCR is invoked exactly
when that is false and `ocr_fallback` is set, and never when the score clears
the threshold. -/
theorem found_threshold_and_ocr_gating (monitor1 : Mon) (env : Env) (iw : ImageWatch)
    (th tw fh fw : Nat) (hT : iw.template = some (th, tw))
    (hC : env.capture = Except.ok (fh, fw)) (hh : th ≤ fh) (hw : tw ≤ fw) :
    (processWatch monitor1 env iw).tmplFound = decide (env.matchVal ≥ iw.threshold) ∧
    (processWatch monitor1 env iw).ocrInvoked =
      (!decide (env.matchVal ≥ iw.threshold) && iw.ocr_fallback) ∧
    (env.matchVal ≥ iw.threshold → (processWatch monitor1 env iw).ocrInvoked = false) := by
  cases hval : decide (env.matchVal ≥ iw.threshold) with
  | true =>
    have hs := of_decide_eq_true hval
    rw [processWatch_score_hit monitor1 env iw th tw fh fw hC hT (matchRaises_of_le iw.mask.isSome fh fw th tw hh hw) hs]
    simp [finishWatch_tmplFound, finishWatch_ocrInvoked, hval]
  | false =>
    have hs := of_decide_eq_false hval
    have hmain : (processWatch monitor1 env iw).tmplFound = false ∧
        (processWatch monitor1 env iw).ocrInvoked = iw.ocr_fallback := by
      cases ho : iw.ocr_fallback with
      | false =>
        rw [processWatch_miss_noocr monitor1 env iw th tw fh fw hC hT (matchRaises_of_le iw.mask.isSome fh fw th tw hh hw) hs ho]
        simp [finishWatch_tmplFound, finishWatch_ocrInvoked]
      | true =>
        cases hocr : env.ocr with
        | error e =>
          rw [processWatch_miss_ocr_err monitor1 env iw th tw fh fw e hC hT (matchRaises_of_le iw.mask.isSome fh fw th tw hh hw) hs ho hocr]
          exact ⟨rfl, rfl⟩
        | ok text =>
          rw [processWatch_miss_ocr_ok monitor1 env iw th tw fh fw text hC hT (matchRaises_of_le iw.mask.isSome fh fw th tw hh hw) hs ho hocr]
          simp [finishWatch_tmplFound, finishWatch_ocrInvoked]
    refine ⟨?_, ?_, fun hcon => absurd hcon hs⟩
    · rw [hmain.1]
    · rw [hmain.2]
      simp

/-- C2 witness: score at threshold with the OCR fallback enabled — detected
via the template and OCR left untouched. -/
theorem found_threshold_and_ocr_gating_witness :
    (processWatch mOne envLoc wOcrOn).tmplFound = true ∧
    (processWatch mOne envLoc wOcrOn).ocrInvoked = false := by
  have h := found_threshold_and_ocr_gating mOne envLoc wOcrOn 20 20 100 100 rfl rfl
    (by decide) (by decide)
  exact ⟨h.1.trans (by decide), h.2.2 (by decide)⟩

/-- C3 counterexample: the claim ("no-detection and no error event" for any
oversized template) fails both ways.  A maskless 50×20 template against its
30×30 region frame (larger in one dimension only) makes `cv2.matchTemplate`
raise, and the caught exception IS reported as an error event; a maskless
1100×2100 template against the full 1000×2000 monitor frame (larger in both
dimensions) is silently swapped and computed, and the tick DOES detect and
fire. -/
theorem oversized_template_reports_error_event :
    (processWatch mOne envMixed wMixed).center = none ∧
    (processWatch mOne envMixed wMixed).errors = ["matchTemplate assertion failed"] ∧
    (processWatch mOne envBig wBig).center.isSome = true ∧
    (processWatch mOne envBig wBig).errors = [] := by
  decide

/-- C3 amended: for a maskless watch, a template strictly larger than the
frame in one dimension and strictly smaller in the other makes
`cv2.matchTemplate` raise — the tick is no-detection, nothing executes, the
armed flag is unchanged and the loop continues, but the caught exception IS
reported as an error event; a template at least as large as the frame in both
dimensions does not raise — `matchTemplate` swaps its arguments and computes
a score, so such a tick behaves as a normal detection tick and can fire. -/
theorem oversized_template_no_detection_error_reported (monitor1 : Mon) (env : Env)
    (iw : ImageWatch) (th tw fh fw : Nat) (hC : env.capture = Except.ok (fh, fw))
    (hT : iw.template = some (th, tw)) (hM : iw.mask = none) :
    ((fh < th ∧ tw < fw) ∨ (th < fh ∧ fw < tw) →
      (processWatch monitor1 env iw).center = none ∧
      (processWatch monitor1 env iw).executed = [] ∧
      (processWatch monitor1 env iw).triggered = iw.triggered ∧
      (processWatch monitor1 env iw).errors = ["matchTemplate assertion failed"]) ∧
    (fh ≤ th → fw ≤ tw → env.matchVal ≥ iw.threshold → iw.triggered = false →
      (processWatch monitor1 env iw).center.isSome = true ∧
      (processWatch monitor1 env iw).errors =
        (runActs env (actionPlan iw)).2) := by
  constructor
  · intro hmix
    have hb : matchRaises iw.mask.isSome fh fw th tw = true := by
      rw [hM]
      exact matchRaises_maskless_mixed fh fw th tw hmix
    rw [processWatch_match_raises monitor1 env iw th tw fh fw hC hT hb]
    exact ⟨rfl, rfl, rfl, rfl⟩
  · intro hh hw hs harm
    have hr : matchRaises iw.mask.isSome fh fw th tw = false := by
      rw [hM]
      exact matchRaises_maskless_swap fh fw th tw hh hw
    rw [processWatch_score_hit monitor1 env iw th tw fh fw hC hT hr hs,
      finishWatch_center, finishWatch_errors]
    simp [harm]

/-- C3 amended witness: the mixed-dimension watch keeps its armed flag and
reports an error event; the both-dimensions watch fires without any error. -/
theorem oversized_template_no_detection_error_reported_witness :
    (processWatch mOne envMixed wMixed).triggered = false ∧
    (processWatch mOne envMixed wMixed).errors ≠ [] ∧
    (processWatch mOne envBig wBig).center.isSome = true := by
  have hmix := (oversized_template_no_detection_error_reported mOne envMixed wMixed
    50 20 30 30 rfl rfl rfl).1 (by omega)
  have hbig := (oversized_template_no_detection_error_reported mOne envBig wBig
    1100 2100 1000 2000 rfl rfl rfl).2 (by omega) (by omega) (by decide) rfl
  refine ⟨hmix.2.2.1.trans (by decide), ?_, hbig.1⟩
  rw [hmix.2.2.2]
  decide

/-- C4 counterexample: a watch configured to move the pointer and then click;
the move backend raises, and the configured click is NOT executed — refuting
per-action isolation within one watch. -/
theorem action_failure_aborts_remaining_actions :
    wActs.click = true ∧
    (processWatch mOne envMoveFail wActs).errors = ["moveTo failed"] ∧
    Action.click ∉ (processWatch mOne envMoveFail wActs).executed := by
  decide

/-- C4 amended: a raising action backend aborts the remaining actions of the
SAME watch for that tick (the exception is caught at watch scope: exactly the
actions before the first failing one execute, and the watch stays armed), but
other watches are processed independently. -/
theorem action_failure_watch_scoped (monitor1 : Mon) (env : Env) (iw : ImageWatch)
    (th tw fh fw : Nat) (hC : env.capture = Except.ok (fh, fw))
    (hT : iw.template = some (th, tw)) (hh : th ≤ fh) (hw : tw ≤ fw)
    (hs : env.matchVal ≥ iw.threshold) (harm : iw.triggered = false) :
    (processWatch monitor1 env iw).executed =
      (actionPlan iw).takeWhile (fun a => (env.actionErr a).isNone) ∧
    (processWatch monitor1 env iw).triggered = true ∧
    (∀ rest, tickWatches monitor1 ((env, iw) :: rest) =
      processWatch monitor1 env iw :: tickWatches monitor1 rest) := by
  refine ⟨?_, ?_, fun rest => rfl⟩
  · rw [processWatch_score_hit monitor1 env iw th tw fh fw hC hT (matchRaises_of_le iw.mask.isSome fh fw th tw hh hw) hs,
      finishWatch_executed]
    simp [harm, runActs_fst]
  · rw [processWatch_score_hit monitor1 env iw th tw fh fw hC hT (matchRaises_of_le iw.mask.isSome fh fw th tw hh hw) hs,
      finishWatch_triggered]
    simp [harm]

/-- C4 amended witness: with the pointer move raising, nothing after it runs
and the watch is armed anyway. -/
theorem action_failure_watch_scoped_witness :
    (processWatch mOne envMoveFail wActs).executed = [] ∧
    (processWatch mOne envMoveFail wActs).triggered = true := by
  have h := action_failure_watch_scoped mOne envMoveFail wActs 20 20 10000 10000
    rfl rfl (by decide) (by decide) (by decide) rfl
  exact ⟨h.1.trans (by decide), h.2.1⟩

/-- C5: the end-of-tick sleep is exactly `max 0 (interval - elapsed)` — the
full remaining difference when the work was fast, zero delay when the work
took at least the interval — and the loop processes every tick (none are
dropped). -/
theorem tick_pacing_sleep_max :
    (∀ elapsed interval : ℚ, sleepFor elapsed interval = max 0 (interval - elapsed)) ∧
    (∀ (monitor1 : Mon) (iw : ImageWatch) (envs : List Env),
      (runTicks monitor1 iw envs).length = envs.length) := by
  constructor
  · intro e i
    unfold sleepFor
    split
    · next h => exact (max_eq_right (by linarith)).symm
    · next h => exact (max_eq_left (by linarith [not_lt.mp h])).symm
  · intro monitor1 iw envs
    induction envs generalizing iw with
    | nil => rfl
    | cons e rest ih => simp [runTicks, ih]

/-- C6: when a watch fires on the template path, the targeted screen
coordinates are `region_origin + match_location + (template_width / 2,
template_height / 2)`, the origin being the configured region's `(x, y)` or
the monitor's origin when no region is set. -/
theorem fire_center_coordinates (monitor1 : Mon) (env : Env) (iw : ImageWatch)
    (th tw fh fw : Nat) (hC : env.capture = Except.ok (fh, fw))
    (hT : iw.template = some (th, tw)) (hh : th ≤ fh) (hw : tw ≤ fw)
    (hs : env.matchVal ≥ iw.threshold) (harm : iw.triggered = false) :
    (processWatch monitor1 env iw).center =
      some ((monFor monitor1 iw).left + env.matchLoc.1 + (iw.w / 2 : Nat),
            (monFor monitor1 iw).top + env.matchLoc.2 + (iw.h / 2 : Nat)) ∧
    (iw.region = none → monFor monitor1 iw = monitor1) ∧
    (∀ x y wd ht, iw.region = some (x, y, wd, ht) →
      monFor monitor1 iw = ⟨x, y, wd, ht⟩) := by
  refine ⟨?_, fun hr => by simp [monFor, hr], fun x y wd ht hr => by simp [monFor, hr]⟩
  rw [processWatch_score_hit monitor1 env iw th tw fh fw hC hT (matchRaises_of_le iw.mask.isSome fh fw th tw hh hw) hs,
    finishWatch_center]
  simp [harm]

/-- C6 witness: 20×20 template matched at `(40, 40)` in region
`(0, 0, 100, 100)` targets `(50, 50)`. -/
theorem fire_center_coordinates_witness :
    (processWatch mOne envLoc wReg).center = some (50, 50) := by
  have h := fire_center_coordinates mOne envLoc wReg 20 20 100 100 rfl rfl
    (by decide) (by decide) (by decide) rfl
  exact h.1.trans (by decide)

/-- C7: a watch whose template failed to decode never becomes detected and
never fires — on every tick, for every frame content and OCR outcome, even
with `ocr_fallback` enabled — and its armed flag never changes. -/
theorem inert_watch_never_fires (monitor1 : Mon) (iw : ImageWatch)
    (hT : iw.template = none) :
    (∀ env, (processWatch monitor1 env iw).center = none ∧
      (processWatch monitor1 env iw).executed = [] ∧
      (processWatch monitor1 env iw).found = false ∧
      (processWatch monitor1 env iw).ocrInvoked = false ∧
      (processWatch monitor1 env iw).triggered = iw.triggered) ∧
    (∀ envs, ((runTicks monitor1 iw envs).map fun r => r.center.isSome) =
      List.replicate envs.length false) := by
  have hstep : ∀ env, (processWatch monitor1 env iw).center = none ∧
      (processWatch monitor1 env iw).executed = [] ∧
      (processWatch monitor1 env iw).found = false ∧
      (processWatch monitor1 env iw).ocrInvoked = false ∧
      (processWatch monitor1 env iw).triggered = iw.triggered := by
    intro env
    cases hc : env.capture with
    | error e =>
      rw [processWatch_capture_err monitor1 env iw e hc]
      exact ⟨rfl, rfl, rfl, rfl, rfl⟩
    | ok p =>
      obtain ⟨fh, fw⟩ := p
      rw [processWatch_inert monitor1 env iw fh fw hc hT]
      exact ⟨rfl, rfl, rfl, rfl, rfl⟩
  refine ⟨hstep, ?_⟩
  intro envs
  induction envs with
  | nil => rfl
  | cons e rest ih =>
    have hcent := (hstep e).1
    have htrig := (hstep e).2.2.2.2
    simp only [runTicks, List.map_cons, hcent, Option.isSome_none,
      List.length_cons, List.replicate, htrig]
    exact congrArg (List.cons false) ih

/-- C7 witness: the inert watch stays silent even on a tick whose OCR text
contains the sentinel keyword. -/
theorem inert_watch_never_fires_witness :
    (processWatch mOne envSkip wInert).center = none ∧
    (processWatch mOne envSkip wInert).executed = [] := by
  have h := (inert_watch_never_fires mOne wInert rfl).1 envSkip
  exact ⟨h.1, h.2.1⟩

/-- C8 counterexample: an armed watch with `ocr_fallback` on, template score
below threshold, and the OCR engine raising — the claim says this tick sets
armed to false, but the exception skips the re-arm branch and the flag stays
true. -/
theorem ocr_exception_leaves_armed_set :
    wOcrArmed.ocr_fallback = true ∧
    wOcrArmed.triggered = true ∧
    ¬envOcrErr.matchVal ≥ wOcrArmed.threshold ∧
    envOcrErr.ocr = Except.error "tesseract missing" ∧
    (processWatch mOne envOcrErr wOcrArmed).triggered = true := by
  refine ⟨rfl, rfl, by decide, rfl, by decide⟩

/-- C8 amended: when the template score is below threshold and `ocr_fallback`
is set, OCR text lacking the keyword (including empty text) is no detection
and clears the armed flag; an OCR engine exception is caught and reported as
an error event, leaves the armed flag unchanged for that tick, and never
terminates the loop (every watch of every tick is still processed). -/
theorem ocr_failure_no_detection (monitor1 : Mon) (env : Env) (iw : ImageWatch)
    (th tw fh fw : Nat) (hC : env.capture = Except.ok (fh, fw))
    (hT : iw.template = some (th, tw)) (hh : th ≤ fh) (hw : tw ≤ fw)
    (hs : ¬env.matchVal ≥ iw.threshold) (ho : iw.ocr_fallback = true) :
    (∀ e, env.ocr = Except.error e →
      (processWatch monitor1 env iw).triggered = iw.triggered ∧
      (processWatch monitor1 env iw).center = none ∧
      (processWatch monitor1 env iw).executed = [] ∧
      (processWatch monitor1 env iw).errors = [e]) ∧
    (∀ text, env.ocr = Except.ok text → hasSkipLower text = false →
      (processWatch monitor1 env iw).triggered = false ∧
      (processWatch monitor1 env iw).center = none ∧
      (processWatch monitor1 env iw).errors = []) ∧
    (∀ items, (tickWatches monitor1 items).length = items.length) := by
  refine ⟨?_, ?_, ?_⟩
  · intro e hocr
    rw [processWatch_miss_ocr_err monitor1 env iw th tw fh fw e hC hT (matchRaises_of_le iw.mask.isSome fh fw th tw hh hw) hs ho hocr]
    exact ⟨rfl, rfl, rfl, rfl⟩
  · intro text hocr hskip
    rw [processWatch_miss_ocr_ok monitor1 env iw th tw fh fw text hC hT (matchRaises_of_le iw.mask.isSome fh fw th tw hh hw) hs ho hocr,
      hskip]
    simp [finishWatch_triggered, finishWatch_center, finishWatch_errors]
  · intro items
    induction items with
    | nil => rfl
    | cons p rest ih =>
      obtain ⟨e, w⟩ := p
      simp [tickWatches, ih]

/-- C8 amended witness: the OCR-raising tick keeps the armed flag; an
empty-text tick on an armed watch clears it. -/
theorem ocr_failure_no_detection_witness :
    (processWatch mOne envOcrErr wOcrArmed).triggered = wOcrArmed.triggered ∧
    (processWatch mOne (envClean 0) wOcrArmed).triggered = false := by
  have h1 := (ocr_failure_no_detection mOne envOcrErr wOcrArmed 20 20 10000 10000
    rfl rfl (by decide) (by decide) (by decide) rfl).1 "tesseract missing" rfl
  have h2 := (ocr_failure_no_detection mOne (envClean 0) wOcrArmed 20 20 10000 10000
    rfl rfl (by decide) (by decide) (by decide) rfl).2.1 "" rfl rfl
  exact ⟨h1.1, h2.1⟩

/-- C9 counterexample: with the same two reads of the stop flag (true, then
false), the code's loop sleeps after the tick and only then sees the stop,
whereas the claim's loop (extra check at the top of the sleep) skips the
sleep — so the flag is NOT checked at the top of the end-of-tick sleep. -/
theorem stop_flag_not_checked_before_sleep :
    runLoop [(true, true), (false, true)] =
      [LoopEvent.check true, LoopEvent.tick, LoopEvent.sleep, LoopEvent.check false] ∧
    specLoopC9 [true, false] =
      [LoopEvent.check true, LoopEvent.tick, LoopEvent.check false] ∧
    LoopEvent.sleep ∈ runLoop [(true, true), (false, true)] ∧
    LoopEvent.sleep ∉ specLoopC9 [true, false] := by
  decide

/-- C9 amended: the stop flag is checked exactly once per full iteration, at
the loop head; a false read stops the loop before any further tick (so a stop
request is honored at the next tick boundary, never mid-tick, and the current
tick always completes); and the end-of-tick sleep begins immediately after
the tick body with no intervening stop-flag check. -/
theorem stop_honored_at_tick_boundary :
    (∀ (s : Bool) (rest : List (Bool × Bool)),
      runLoop ((false, s) :: rest) = [LoopEvent.check false]) ∧
    (∀ (s : Bool) (rest : List (Bool × Bool)),
      runLoop ((true, s) :: rest) =
        LoopEvent.check true :: LoopEvent.tick ::
          ((if s then [LoopEvent.sleep] else []) ++ runLoop rest)) ∧
    (∀ l, List.Chain'
      (fun a b => b = LoopEvent.sleep → a = LoopEvent.tick) (runLoop l)) := by
  have hhead : ∀ (l : List (Bool × Bool)) (e : LoopEvent),
      (runLoop l).head? = some e → ∃ b, e = LoopEvent.check b := by
    intro l e he
    cases l with
    | nil => exact absurd he (by simp [runLoop])
    | cons p rest =>
      obtain ⟨f, s⟩ := p
      refine ⟨f, ?_⟩
      simp [runLoop] at he
      exact he.symm
  refine ⟨fun s rest => rfl, fun s rest => rfl, ?_⟩
  intro l
  induction l with
  | nil => simp [runLoop]
  | cons p rest ih =>
    obtain ⟨f, s⟩ := p
    cases f with
    | false => simp [runLoop]
    | true =>
      cases s with
      | false =>
        simp only [runLoop, if_true, List.nil_append]
        rw [List.chain'_cons, List.chain'_cons']
        refine ⟨by simp, ?_, ih⟩
        intro b hb
        obtain ⟨c, hc⟩ := hhead rest b hb
        simp [hc]
      | true =>
        simp only [runLoop, if_true, List.singleton_append]
        rw [List.chain'_cons, List.chain'_cons, List.chain'_cons']
        refine ⟨by simp, by simp, ?_, ih⟩
        intro b hb
        obtain ⟨c, hc⟩ := hhead rest b hb
        simp [hc]

/-- C10 counterexample: an unarmed watch fires, its pointer-move backend
raises — an error event is emitted, yet the armed flag was already set true
before the action ran, so it does NOT retain its pre-tick value. -/
theorem action_exception_changes_armed :
    wMove.triggered = false ∧
    (processWatch mOne envMoveFail wMove).errors ≠ [] ∧
    (processWatch mOne envMoveFail wMove).triggered = true := by
  decide

/-- C10 amended: an exception raised before the trigger decision — during
capture/grayscale, a raising template match (which, maskless, happens only
when the template is strictly larger than the frame in one dimension and
strictly smaller in the other), or OCR — leaves the armed flag at its
pre-tick value and fires nothing; but an exception in an action backend
occurs after `_triggered` was already set true, so on such a tick the flag
ends true regardless of its pre-tick value. -/
theorem exception_tick_armed_flag (monitor1 : Mon) :
    (∀ (env : Env) (iw : ImageWatch) (e : String), env.capture = Except.error e →
      (processWatch monitor1 env iw).triggered = iw.triggered ∧
      (processWatch monitor1 env iw).executed = []) ∧
    (∀ (env : Env) (iw : ImageWatch) (th tw fh fw : Nat),
      env.capture = Except.ok (fh, fw) → iw.template = some (th, tw) →
      matchRaises iw.mask.isSome fh fw th tw = true →
      (processWatch monitor1 env iw).triggered = iw.triggered ∧
      (processWatch monitor1 env iw).executed = []) ∧
    (∀ (env : Env) (iw : ImageWatch) (th tw fh fw : Nat) (e : String),
      env.capture = Except.ok (fh, fw) → iw.template = some (th, tw) →
      th ≤ fh → tw ≤ fw → ¬env.matchVal ≥ iw.threshold →
      iw.ocr_fallback = true → env.ocr = Except.error e →
      (processWatch monitor1 env iw).triggered = iw.triggered ∧
      (processWatch monitor1 env iw).executed = []) ∧
    (∀ (env : Env) (iw : ImageWatch) (th tw fh fw : Nat),
      env.capture = Except.ok (fh, fw) → iw.template = some (th, tw) →
      th ≤ fh → tw ≤ fw → env.matchVal ≥ iw.threshold → iw.triggered = false →
      (processWatch monitor1 env iw).triggered = true) := by
  refine ⟨?_, ?_, ?_, ?_⟩
  · intro env iw e hc
    rw [processWatch_capture_err monitor1 env iw e hc]
    exact ⟨rfl, rfl⟩
  · intro env iw th tw fh fw hc hT hb
    rw [processWatch_match_raises monitor1 env iw th tw fh fw hc hT hb]
    exact ⟨rfl, rfl⟩
  · intro env iw th tw fh fw e hc hT hh hw hs ho hocr
    rw [processWatch_miss_ocr_err monitor1 env iw th tw fh fw e hc hT
      (matchRaises_of_le iw.mask.isSome fh fw th tw hh hw) hs ho hocr]
    exact ⟨rfl, rfl⟩
  · intro env iw th tw fh fw hc hT hh hw hs harm
    rw [processWatch_score_hit monitor1 env iw th tw fh fw hc hT
      (matchRaises_of_le iw.mask.isSome fh fw th tw hh hw) hs,
      finishWatch_triggered]
    simp [harm]

/-- C10 amended witness: a capture-raising tick keeps the flag; a tick whose
pointer-move raises ends with the flag set. -/
theorem exception_tick_armed_flag_witness :
    (processWatch mOne envGrabErr wT1).triggered = false ∧
    (processWatch mOne envMoveFail wMove).triggered = true := by
  have h := exception_tick_armed_flag mOne
  refine ⟨((h.1 envGrabErr wT1 "grab failed" rfl).1).trans (by decide), ?_⟩
  exact h.2.2.2 envMoveFail wMove 20 20 10000 10000 rfl rfl
    (by decide) (by decide) (by decide) rfl

end RTSID
